import Mathlib

/-!
Shallow embedding of `src/cpp/session/modules/rmarkdown/SessionRmdNotebook.cpp`
(RStudio notebook chunk execution coordinator).

The coordinator's mutable process state (`s_activeConsole`, `s_execContext`) is
modelled as an explicit `NotebookState` record threaded through the handlers.
External collaborators (the chunk-output store, the R option evaluator, the
client event queue) are modelled as function parameters and as an `Action`
trace of the side-effecting calls the handlers make, in order.
-/

namespace RmdNotebook

/-- A fragment of `core::json::Value` sufficient for the chunk-def arrays and
evaluated option objects the coordinator inspects. -/
inductive JVal where
  | null
  | jbool (b : Bool)
  | jnum (n : Int)
  | jstr (s : String)
  | jarr (elems : List JVal)
  | jobj (fields : List (String × JVal))

/-- `json::readObject(obj, name, &bool)`: error when the member is missing or
is not a boolean, otherwise the boolean value. -/
def readObjectBool (fields : List (String × JVal)) (name : String) : Except Unit Bool :=
  match fields.lookup name with
  | some (JVal.jbool b) => Except.ok b
  | _ => Except.error ()

/-- `#define kFinishedReplay 0` -/
def kFinishedReplay : Nat := 0

/-- `#define kFinishedInteractive 1` -/
def kFinishedInteractive : Nat := 1

/-- `#define kExecModeSingle 0` -/
def kExecModeSingle : Int := 0

/-- `#define kExecModeBatch 1` -/
def kExecModeBatch : Int := 1

/-- The payload of a `kChunkOutputFinished` client event, as assembled in
`replayChunkOutputs` and `emitOutputFinished`. -/
structure ChunkOutputFinishedEvent where
  doc_id : String
  request_id : String
  chunk_id : String
  type : Nat
deriving DecidableEq

/-- The side-effecting calls a handler makes, in order: store enqueues, client
events, and the `ChunkExecContext` methods that live in NotebookExec. -/
inductive Action where
  | enqueueChunkOutput (docPath docId chunkId nbCtxId requestId : String)
  | chunkOutputFinished (e : ChunkOutputFinishedEvent)
  | connect
  | consoleInput (text : String)
  | disconnect
  | cleanChunkOutput (docId chunkId : String) (removeCacheFiles : Bool)
deriving DecidableEq

/-- The identity inputs of `notebookCtxId`: `userSettings().contextId()` and
`module_context::activeSession().id()`, fixed for a process lifetime. -/
structure SessionIdentity where
  userContextId : String
  sessionId : String

/-- `notebookCtxId()`: `userSettings().contextId() + activeSession().id()`. -/
def notebookCtxId (ident : SessionIdentity) : String :=
  ident.userContextId ++ ident.sessionId

/-- The observable fields of `ChunkExecContext` (NotebookExec): chunk identity,
options, widths, and whether the context is connected to the console. -/
structure ChunkExecContext where
  docId : String
  chunkId : String
  options : String
  pixelWidth : Int
  charWidth : Int
  connected : Bool
deriving DecidableEq

/-- The coordinator's process-wide mutable state: `s_activeConsole` and
`s_execContext`. -/
structure NotebookState where
  activeConsole : String
  execContext : Option ChunkExecContext
deriving DecidableEq

/-- Modelled from the spec: `extractChunkIds` (NotebookChunkDefs, not in src)
turns the store-returned chunk-def array into the "ordered sequence of
chunkId": each array element naming a chunk contributes its `chunk_id` string
member, in store-returned order. -/
def extractChunkIds (chunkOutputs : List JVal) : List String :=
  chunkOutputs.filterMap fun v =>
    match v with
    | JVal.jobj fields =>
      match fields.lookup "chunk_id" with
      | some (JVal.jstr s) => some s
      | _ => none
    | _ => none

/-- `replayChunkOutputs(docPath, docId, requestId, chunkOutputs)`: enqueue each
chunk's cached output under `notebookCtxId()` tagged with `requestId`, then
emit one `kChunkOutputFinished` event of type `kFinishedReplay` with empty
`chunk_id`. -/
def replayChunkOutputs (ident : SessionIdentity)
    (docPath docId requestId : String) (chunkOutputs : List JVal) : List Action :=
  ((extractChunkIds chunkOutputs).map fun chunkId =>
    Action.enqueueChunkOutput docPath docId chunkId (notebookCtxId ident) requestId)
  ++ [Action.chunkOutputFinished ⟨docId, requestId, "", kFinishedReplay⟩]

/-- Outcome of the `refresh_chunk_output` RPC: the value returned to the caller
and the replay work scheduled to run after the response, if any. -/
structure RefreshResult where
  response : Except String Unit
  scheduled : Option (List Action)

/-- `refreshChunkOutput`: parse params; substitute our own context id when the
supplied one is empty; query `getChunkDefs`; when the query succeeds with an
array, schedule `replayChunkOutputs` after the response; return `Success()`
(parse errors excepted). `getChunkDefs` is an external collaborator, passed as
a function. -/
def refreshChunkOutput (ident : SessionIdentity)
    (params : Except String (String × String × String × String))
    (getChunkDefs : String → String → String → Except String JVal) : RefreshResult :=
  match params with
  | Except.error e => ⟨Except.error e, none⟩
  | Except.ok (docPath, docId, nbCtxIdIn, requestId) =>
    let nbCtxId := if nbCtxIdIn = "" then notebookCtxId ident else nbCtxIdIn
    match getChunkDefs docPath docId nbCtxId with
    | Except.error _ => ⟨Except.ok (), none⟩
    | Except.ok chunkDefs =>
      match chunkDefs with
      | JVal.jarr chunkOutputs =>
        ⟨Except.ok (), some (replayChunkOutputs ident docPath docId requestId chunkOutputs)⟩
      | _ => ⟨Except.ok (), none⟩

/-- `emitOutputFinished(docId, chunkId)`: one `kChunkOutputFinished` event of
type `kFinishedInteractive` with empty `request_id`. -/
def emitOutputFinished (docId chunkId : String) : List Action :=
  [Action.chunkOutputFinished ⟨docId, "", chunkId, kFinishedInteractive⟩]

/-- `onActiveConsoleChanged(consoleId, text)`: record the active console; then,
when a context exists: on its own console, connect and forward `text` unless
already connected; on a different console, disconnect and destroy the context
only when it is connected. -/
def onActiveConsoleChanged (st : NotebookState) (consoleId text : String) :
    NotebookState × List Action :=
  let st1 : NotebookState := { st with activeConsole := consoleId }
  match st1.execContext with
  | none => (st1, [])
  | some ctx =>
    if consoleId = ctx.chunkId then
      if ctx.connected then
        (st1, [])
      else
        ({ st1 with execContext := some { ctx with connected := true } },
         [Action.connect, Action.consoleInput text])
    else if ctx.connected then
      ({ st1 with execContext := none }, [Action.disconnect])
    else
      (st1, [])

/-- `onChunkExecCompleted(docId, chunkId, nbCtxId)`: emit the interactive
finished event, then destroy the context only when the completed identity
matches it. -/
def onChunkExecCompleted (st : NotebookState) (docId chunkId nbCtxId : String) :
    NotebookState × List Action :=
  let acts := emitOutputFinished docId chunkId
  match st.execContext with
  | some ctx =>
    if ctx.docId = docId ∧ ctx.chunkId = chunkId then
      ({ st with execContext := none }, acts)
    else
      (st, acts)
  | none => (st, acts)

/-- Parsed parameters of the `set_chunk_console` RPC. -/
structure SetChunkConsoleParams where
  docId : String
  chunkId : String
  execMode : Int
  options : String
  pixelWidth : Int
  charWidth : Int
  replaceFlag : Bool

/-- Outcome of the `set_chunk_console` RPC: the new coordinator state, the RPC
response, and the side-effecting calls made. -/
structure SetChunkConsoleResult where
  state : NotebookState
  response : Except String JVal
  actions : List Action

/-- `setChunkConsole`: parse params; evaluate the chunk options through the
external evaluator (`.rs.evaluateChunkOptions` plus `jsonValueFromList`,
modelled jointly as `evalResult`); set the evaluated options as the RPC result;
in batch mode with an evaluated `eval: false` flag, stop there; otherwise clean
the chunk's cached output, disconnect any prior context, install a fresh
context, and connect it when its chunk is already the active console. -/
def setChunkConsole (st : NotebookState)
    (params : Except String SetChunkConsoleParams)
    (evalResult : Except String JVal) : SetChunkConsoleResult :=
  match params with
  | Except.error e => ⟨st, Except.error e, []⟩
  | Except.ok p =>
    match evalResult with
    | Except.error e => ⟨st, Except.error e, []⟩
    | Except.ok jsonOptions =>
      let evalFlag : Option Bool :=
        match jsonOptions with
        | JVal.jobj fields =>
          match readObjectBool fields "eval" with
          | Except.ok b => some b
          | Except.error _ => none
        | _ => none
      if p.execMode = kExecModeBatch ∧ evalFlag = some false then
        ⟨st, Except.ok jsonOptions, []⟩
      else
        let cleanActs := [Action.cleanChunkOutput p.docId p.chunkId true]
        let discActs : List Action :=
          match st.execContext with
          | some _ => [Action.disconnect]
          | none => []
        let newCtx : ChunkExecContext :=
          ⟨p.docId, p.chunkId, p.options, p.pixelWidth, p.charWidth, false⟩
        if st.activeConsole = p.chunkId then
          ⟨{ st with execContext := some { newCtx with connected := true } },
           Except.ok jsonOptions, cleanActs ++ discActs ++ [Action.connect]⟩
        else
          ⟨{ st with execContext := some newCtx },
           Except.ok jsonOptions, cleanActs ++ discActs⟩

/-- The `kChunkOutputFinished` events contained in a trace, in order. -/
def finishedEvents (acts : List Action) : List ChunkOutputFinishedEvent :=
  acts.filterMap fun a =>
    match a with
    | Action.chunkOutputFinished e => some e
    | _ => none

lemma finishedEvents_append (l1 l2 : List Action) :
    finishedEvents (l1 ++ l2) = finishedEvents l1 ++ finishedEvents l2 := by
  simp [finishedEvents, List.filterMap_append]

lemma finishedEvents_enqueue_map (docPath docId ctxId requestId : String)
    (cids : List String) :
    finishedEvents (cids.map fun cid =>
      Action.enqueueChunkOutput docPath docId cid ctxId requestId) = [] := by
  simp [finishedEvents, List.filterMap_map, Function.comp]

/-- C1 counterexample: with well-formed parameters and a failing store query,
`refreshChunkOutput` returns `Success()` — not the store error — while
scheduling no replay, so the claim that the error is returned to the caller
fails. -/
theorem c1_store_error_swallowed_cex :
    (refreshChunkOutput ⟨"u", "s"⟩ (Except.ok ("p.Rmd", "doc1", "ctx1", "req1"))
      (fun _ _ _ => Except.error "store failure")).response = Except.ok () ∧
    (refreshChunkOutput ⟨"u", "s"⟩ (Except.ok ("p.Rmd", "doc1", "ctx1", "req1"))
      (fun _ _ _ => Except.error "store failure")).scheduled = none := by
  exact ⟨rfl, rfl⟩

/-- C1 (amended): for every call to `refreshChunkOutput` whose parameters parse
successfully but whose `getChunkDefs` query fails, no replay work is scheduled,
and the error is not returned: the RPC responds with success. -/
theorem c1_store_error_no_replay (ident : SessionIdentity)
    (docPath docId nbCtxIdIn requestId : String)
    (store : String → String → String → Except String JVal) (e : String)
    (hfail : store docPath docId
      (if nbCtxIdIn = "" then notebookCtxId ident else nbCtxIdIn) = Except.error e) :
    (refreshChunkOutput ident (Except.ok (docPath, docId, nbCtxIdIn, requestId))
      store).response = Except.ok () ∧
    (refreshChunkOutput ident (Except.ok (docPath, docId, nbCtxIdIn, requestId))
      store).scheduled = none := by
  simp [refreshChunkOutput, hfail]

/-- C1 witness. -/
theorem c1_store_error_no_replay_witness :
    (refreshChunkOutput ⟨"u", "s"⟩ (Except.ok ("p.Rmd", "doc1", "ctx1", "req1"))
      (fun _ _ _ => Except.error "boom")).response = Except.ok () ∧
    (refreshChunkOutput ⟨"u", "s"⟩ (Except.ok ("p.Rmd", "doc1", "ctx1", "req1"))
      (fun _ _ _ => Except.error "boom")).scheduled = none :=
  c1_store_error_no_replay ⟨"u", "s"⟩ "p.Rmd" "doc1" "ctx1" "req1"
    (fun _ _ _ => Except.error "boom") "boom" rfl

/-- C2: a replay run enqueues each chunk's cached output in store-returned
order tagged with the request id, and afterwards emits exactly one finished
event, of type Replay with empty chunk id and that request id — also when the
chunk list is empty. -/
theorem c2_replay_enqueues_then_one_finished (ident : SessionIdentity)
    (docPath docId requestId : String) (chunkOutputs : List JVal) :
    (replayChunkOutputs ident docPath docId requestId chunkOutputs).dropLast =
      ((extractChunkIds chunkOutputs).map fun chunkId =>
        Action.enqueueChunkOutput docPath docId chunkId (notebookCtxId ident) requestId) ∧
    (replayChunkOutputs ident docPath docId requestId chunkOutputs).getLast? =
      some (Action.chunkOutputFinished ⟨docId, requestId, "", kFinishedReplay⟩) ∧
    (finishedEvents (replayChunkOutputs ident docPath docId requestId chunkOutputs)).length = 1 := by
  refine ⟨?_, ?_, ?_⟩
  · simp [replayChunkOutputs]
  · simp [replayChunkOutputs]
  · simp [replayChunkOutputs, finishedEvents_append, finishedEvents_enqueue_map,
      finishedEvents]

/-- C3: with a Connected context for chunk A, a console change to B ≠ A
disconnects and destroys the context and records B as the active console. -/
theorem c3_focus_switch_teardown (st : NotebookState) (ctx : ChunkExecContext)
    (b text : String) (hctx : st.execContext = some ctx)
    (hconn : ctx.connected = true) (hne : b ≠ ctx.chunkId) :
    (onActiveConsoleChanged st b text).1.execContext = none ∧
    (onActiveConsoleChanged st b text).1.activeConsole = b ∧
    (onActiveConsoleChanged st b text).2 = [Action.disconnect] := by
  simp [onActiveConsoleChanged, hctx, hconn, hne]

/-- C3 witness. -/
theorem c3_focus_switch_teardown_witness :
    (onActiveConsoleChanged ⟨"a", some ⟨"d", "a", "o", 0, 0, true⟩⟩ "b" "t").1.execContext
      = none ∧
    (onActiveConsoleChanged ⟨"a", some ⟨"d", "a", "o", 0, 0, true⟩⟩ "b" "t").1.activeConsole
      = "b" ∧
    (onActiveConsoleChanged ⟨"a", some ⟨"d", "a", "o", 0, 0, true⟩⟩ "b" "t").2
      = [Action.disconnect] :=
  c3_focus_switch_teardown ⟨"a", some ⟨"d", "a", "o", 0, 0, true⟩⟩
    ⟨"d", "a", "o", 0, 0, true⟩ "b" "t" rfl rfl (by decide)

/-- C4: every completion event emits exactly one Interactive finished event
tagged with the completed (docId, chunkId); when that identity does not match
the live context, the whole coordinator state — context identity, options and
connection state included — is unchanged. -/
theorem c4_completion_event_stale_inert (st : NotebookState)
    (docId chunkId nbCtxId : String) :
    (onChunkExecCompleted st docId chunkId nbCtxId).2 =
      [Action.chunkOutputFinished ⟨docId, "", chunkId, kFinishedInteractive⟩] ∧
    (∀ ctx, st.execContext = some ctx → ¬(ctx.docId = docId ∧ ctx.chunkId = chunkId) →
      (onChunkExecCompleted st docId chunkId nbCtxId).1 = st) := by
  constructor
  · cases hctx : st.execContext with
    | none => simp [onChunkExecCompleted, emitOutputFinished, hctx]
    | some ctx =>
      by_cases hmatch : ctx.docId = docId ∧ ctx.chunkId = chunkId <;>
        simp [onChunkExecCompleted, emitOutputFinished, hctx, hmatch]
  · intro ctx hctx hmismatch
    simp [onChunkExecCompleted, hctx, hmismatch]

/-- C4 witness. -/
theorem c4_completion_event_stale_inert_witness :
    (onChunkExecCompleted ⟨"a", some ⟨"d1", "cA", "o", 0, 0, true⟩⟩ "d2" "cB" "n").2 =
      [Action.chunkOutputFinished ⟨"d2", "", "cB", kFinishedInteractive⟩] ∧
    (onChunkExecCompleted ⟨"a", some ⟨"d1", "cA", "o", 0, 0, true⟩⟩ "d2" "cB" "n").1 =
      ⟨"a", some ⟨"d1", "cA", "o", 0, 0, true⟩⟩ :=
  ⟨(c4_completion_event_stale_inert ⟨"a", some ⟨"d1", "cA", "o", 0, 0, true⟩⟩
      "d2" "cB" "n").1,
   (c4_completion_event_stale_inert ⟨"a", some ⟨"d1", "cA", "o", 0, 0, true⟩⟩
      "d2" "cB" "n").2 ⟨"d1", "cA", "o", 0, 0, true⟩ rfl (by decide)⟩

/-- C5: `setChunkConsole` in batch mode whose evaluated options carry
`eval: false` returns the evaluated options as the RPC result while making no
side-effecting call (no output cleaned, no connect or disconnect) and leaving
the coordinator state — any existing context included — unchanged. -/
theorem c5_batch_eval_false_skip (st : NotebookState) (p : SetChunkConsoleParams)
    (fields : List (String × JVal)) (hmode : p.execMode = kExecModeBatch)
    (heval : readObjectBool fields "eval" = Except.ok false) :
    setChunkConsole st (Except.ok p) (Except.ok (JVal.jobj fields)) =
      ⟨st, Except.ok (JVal.jobj fields), []⟩ := by
  simp [setChunkConsole, hmode, heval]

/-- C5 witness. -/
theorem c5_batch_eval_false_skip_witness :
    setChunkConsole ⟨"c9", some ⟨"d0", "c0", "o0", 1, 2, true⟩⟩
      (Except.ok ⟨"d", "c", 1, "o", 640, 80, false⟩)
      (Except.ok (JVal.jobj [("eval", JVal.jbool false)])) =
      ⟨⟨"c9", some ⟨"d0", "c0", "o0", 1, 2, true⟩⟩,
       Except.ok (JVal.jobj [("eval", JVal.jbool false)]), []⟩ :=
  c5_batch_eval_false_skip ⟨"c9", some ⟨"d0", "c0", "o0", 1, 2, true⟩⟩
    ⟨"d", "c", 1, "o", 640, 80, false⟩ [("eval", JVal.jbool false)] rfl rfl

/-- C6: with a context already Connected for chunk A, a console-change call for
console A is a no-op apart from recording the active console: the context is
kept verbatim (still Connected) and no connect or input-forwarding call is
made. -/
theorem c6_idempotent_connect (st : NotebookState) (ctx : ChunkExecContext)
    (text : String) (hctx : st.execContext = some ctx)
    (hconn : ctx.connected = true) :
    (onActiveConsoleChanged st ctx.chunkId text).1 =
      { st with activeConsole := ctx.chunkId } ∧
    (onActiveConsoleChanged st ctx.chunkId text).2 = [] := by
  simp [onActiveConsoleChanged, hctx, hconn]

/-- C6 witness. -/
theorem c6_idempotent_connect_witness :
    (onActiveConsoleChanged ⟨"x", some ⟨"d", "a", "o", 0, 0, true⟩⟩ "a" "t").1 =
      ⟨"a", some ⟨"d", "a", "o", 0, 0, true⟩⟩ ∧
    (onActiveConsoleChanged ⟨"x", some ⟨"d", "a", "o", 0, 0, true⟩⟩ "a" "t").2 = [] :=
  c6_idempotent_connect ⟨"x", some ⟨"d", "a", "o", 0, 0, true⟩⟩
    ⟨"d", "a", "o", 0, 0, true⟩ "t" rfl rfl

/-- C7 counterexample: a Disconnected context for chunk "a" survives a
console-change call for console "b" ≠ "a" — the context is kept, refuting the
claim that no context ever remains after such a call. -/
theorem c7_disconnected_context_kept_cex :
    ("b" : String) ≠ "a" ∧
    (onActiveConsoleChanged ⟨"x", some ⟨"d", "a", "o", 0, 0, false⟩⟩ "b" "t").1.execContext =
      some ⟨"d", "a", "o", 0, 0, false⟩ := by
  exact ⟨by decide, rfl⟩

/-- C7 (amended): after a console-change call with a context present and a
console id different from the context's chunk id, the context is destroyed
when it was Connected, but kept unchanged when it was Disconnected; the active
console id becomes the notified console either way. -/
theorem c7_teardown_only_when_connected (st : NotebookState)
    (ctx : ChunkExecContext) (consoleId text : String)
    (hctx : st.execContext = some ctx) (hne : consoleId ≠ ctx.chunkId) :
    (onActiveConsoleChanged st consoleId text).1.activeConsole = consoleId ∧
    (onActiveConsoleChanged st consoleId text).1.execContext =
      (if ctx.connected then none else some ctx) := by
  by_cases hconn : ctx.connected <;>
    simp [onActiveConsoleChanged, hctx, hne, hconn]

/-- C7 witness. -/
theorem c7_teardown_only_when_connected_witness :
    (onActiveConsoleChanged ⟨"x", some ⟨"d", "a", "o", 0, 0, false⟩⟩ "b" "u").1.activeConsole
      = "b" ∧
    (onActiveConsoleChanged ⟨"x", some ⟨"d", "a", "o", 0, 0, false⟩⟩ "b" "u").1.execContext
      = (if (⟨"d", "a", "o", 0, 0, false⟩ : ChunkExecContext).connected then none
         else some ⟨"d", "a", "o", 0, 0, false⟩) :=
  c7_teardown_only_when_connected ⟨"x", some ⟨"d", "a", "o", 0, 0, false⟩⟩
    ⟨"d", "a", "o", 0, 0, false⟩ "b" "u" rfl (by decide)

/-- C8: every finished event either emitter produces satisfies tag
exclusivity — a replay-run event has type Replay, empty chunk id and the
originating request's id; an `emitOutputFinished` event has type Interactive,
empty request id and the completed chunk's id. -/
theorem c8_finished_event_tag_exclusivity :
    (∀ (ident : SessionIdentity) (docPath docId requestId : String)
       (chunkOutputs : List JVal) (e : ChunkOutputFinishedEvent),
       e ∈ finishedEvents (replayChunkOutputs ident docPath docId requestId chunkOutputs) →
       e.type = kFinishedReplay ∧ e.chunk_id = "" ∧ e.request_id = requestId) ∧
    (∀ (docId chunkId : String) (e : ChunkOutputFinishedEvent),
       e ∈ finishedEvents (emitOutputFinished docId chunkId) →
       e.type = kFinishedInteractive ∧ e.request_id = "" ∧ e.chunk_id = chunkId) := by
  constructor
  · intro ident docPath docId requestId chunkOutputs e hmem
    rw [replayChunkOutputs, finishedEvents_append, finishedEvents_enqueue_map] at hmem
    simp [finishedEvents] at hmem
    subst hmem
    exact ⟨rfl, rfl, rfl⟩
  · intro docId chunkId e hmem
    simp [emitOutputFinished, finishedEvents] at hmem
    subst hmem
    exact ⟨rfl, rfl, rfl⟩

/-- C8 witness. -/
theorem c8_finished_event_tag_exclusivity_witness :
    ((⟨"d", "r", "", kFinishedReplay⟩ : ChunkOutputFinishedEvent).type = kFinishedReplay ∧
     (⟨"d", "r", "", kFinishedReplay⟩ : ChunkOutputFinishedEvent).chunk_id = "" ∧
     (⟨"d", "r", "", kFinishedReplay⟩ : ChunkOutputFinishedEvent).request_id = "r") ∧
    ((⟨"d", "", "c", kFinishedInteractive⟩ : ChunkOutputFinishedEvent).type = kFinishedInteractive ∧
     (⟨"d", "", "c", kFinishedInteractive⟩ : ChunkOutputFinishedEvent).request_id = "" ∧
     (⟨"d", "", "c", kFinishedInteractive⟩ : ChunkOutputFinishedEvent).chunk_id = "c") :=
  ⟨c8_finished_event_tag_exclusivity.1 ⟨"u", "s"⟩ "p" "d" "r" []
     ⟨"d", "r", "", kFinishedReplay⟩ (by decide),
   c8_finished_event_tag_exclusivity.2 "d" "c"
     ⟨"d", "", "c", kFinishedInteractive⟩ (by decide)⟩

/-- C9: `notebookCtxId` is a function of the (user, session) identity pair
alone — equal identities give equal ids, so repeated calls within one process
lifetime agree — and the returned string is the combination of the user
context id and the session id. -/
theorem c9_ctx_id_pure_stable (id1 id2 : SessionIdentity)
    (hu : id1.userContextId = id2.userContextId)
    (hs : id1.sessionId = id2.sessionId) :
    notebookCtxId id1 = notebookCtxId id2 ∧
    notebookCtxId id1 = id1.userContextId ++ id1.sessionId := by
  constructor
  · rw [notebookCtxId, notebookCtxId, hu, hs]
  · rfl

/-- C9 witness. -/
theorem c9_ctx_id_pure_stable_witness :
    notebookCtxId ⟨"uctx", "sid"⟩ = notebookCtxId ⟨"uctx", "sid"⟩ ∧
    notebookCtxId ⟨"uctx", "sid"⟩ = "uctx" ++ "sid" :=
  c9_ctx_id_pure_stable ⟨"uctx", "sid"⟩ ⟨"uctx", "sid"⟩ rfl rfl

/-- C10: whatever notebook context id the caller supplies, every enqueue in
the replay that `refreshChunkOutput` schedules carries the process's own
`notebookCtxId`, never the caller-supplied one. -/
theorem c10_replay_enqueues_own_ctx_id (ident : SessionIdentity)
    (docPath docId nbCtxIdIn requestId : String)
    (store : String → String → String → Except String JVal) (acts : List Action)
    (hsched : (refreshChunkOutput ident
      (Except.ok (docPath, docId, nbCtxIdIn, requestId)) store).scheduled = some acts) :
    ∀ dp di ci ctxId ri,
      Action.enqueueChunkOutput dp di ci ctxId ri ∈ acts → ctxId = notebookCtxId ident := by
  intro dp di ci ctxId ri hmem
  rw [refreshChunkOutput] at hsched
  rcases hdefs : store docPath docId
      (if nbCtxIdIn = "" then notebookCtxId ident else nbCtxIdIn) with e | v
  · rw [hdefs] at hsched
    simp at hsched
  · rw [hdefs] at hsched
    cases v with
    | jarr chunkOutputs =>
      simp at hsched
      subst hsched
      rw [replayChunkOutputs] at hmem
      rcases List.mem_append.1 hmem with hmap | hsingle
      · rcases List.mem_map.1 hmap with ⟨cid, _, heq⟩
        cases heq
        rfl
      · simp at hsingle
    | null => simp at hsched
    | jbool b => simp at hsched
    | jnum n => simp at hsched
    | jstr s => simp at hsched
    | jobj fields => simp at hsched

/-- C10 witness. -/
theorem c10_replay_enqueues_own_ctx_id_witness :
    ("u" ++ "s" : String) = notebookCtxId ⟨"u", "s"⟩ :=
  c10_replay_enqueues_own_ctx_id ⟨"u", "s"⟩ "p" "d" "caller-ctx" "r"
    (fun _ _ _ => Except.ok (JVal.jarr [JVal.jobj [("chunk_id", JVal.jstr "c1")]]))
    (replayChunkOutputs ⟨"u", "s"⟩ "p" "d" "r" [JVal.jobj [("chunk_id", JVal.jstr "c1")]])
    rfl "p" "d" "c1" ("u" ++ "s") "r" (by decide)

end RmdNotebook
